import Mathlib

/-!
Verification development for the OpenDeepSearch research core.

The TypeScript sources are embedded shallowly over `Str := List Char`:
JavaScript strings become character lists, numbers that carry fractional
values become `ℚ`, JS `undefined` becomes `Option`, thrown exceptions become
`Except`, and the mutable per-process session map becomes an association
list threaded through every operation.  Collaborator effects that leave the
core (the Brave Search HTTP call, `Date.now()`, `uuidv4()`) are supplied as
explicit inputs, mirroring exactly what the core reads from them.
-/

/-- Character strings of the embedded program: JS strings as char lists. -/
abbrev Str := List Char

/-- Literal helper: a Lean string literal viewed as a char list. -/
def str (s : String) : Str := s.toList

/-- JS `\s` / `String.trim` whitespace test.  JS also treats rarer Unicode
whitespace as `\s`; only these ASCII characters occur in this development. -/
def isWS (c : Char) : Bool := c == ' ' || c == '\t' || c == '\n' || c == '\r'

/-- ASCII lowercasing of one character, embedding JS `toLowerCase` (all
strings handled by the program are ASCII). -/
def toLowerChar (c : Char) : Char :=
  if 'A' ≤ c ∧ c ≤ 'Z' then Char.ofNat (c.toNat + 32) else c

/-- JS `s.toLowerCase()`. -/
def toLower (l : Str) : Str := l.map toLowerChar

/-- JS `s.replace(/\?/g, '')`: drop every question mark. -/
def removeQ (l : Str) : Str := l.filter (fun c => c ≠ '?')

/-- Drop trailing whitespace (the tail half of JS `trim`). -/
def dropTrail (l : Str) : Str := (l.reverse.dropWhile isWS).reverse

/-- JS `s.trim()`. -/
def trim (l : Str) : Str := dropTrail (l.dropWhile isWS)

/-- Does `l` start with `n`?  (Helper for the substring test.) -/
def startsWith : Str → Str → Bool
  | _, [] => true
  | [], _ :: _ => false
  | c :: cs, n :: ns => c == n && startsWith cs ns

/-- JS `hay.includes(needle)`: substring occurrence test. -/
def containsSub : Str → Str → Bool
  | [], needle => needle.isEmpty
  | c :: t, needle => startsWith (c :: t) needle || containsSub t needle

/-- Split a string at every single whitespace character.  JS splits on the
regex `/\s+/`, which differs from the per-character split only by the empty
fragments a whitespace run leaves behind; every caller in the sources
filters fragments by a length bound that discards empties, so the two
splits are interchangeable there. -/
def splitOnWSChar (l : Str) : List Str :=
  l.foldr
    (fun c acc =>
      if isWS c then [] :: acc
      else
        match acc with
        | [] => [[c]]
        | a :: as => (c :: a) :: as)
    [[]]

/-- First-seen deduplication pass, the order-preserving semantics shared by
JS `new Set(...)` and insertion into a JS `Map`.  `seen` accumulates the
keys already emitted. -/
def dedupFirstGo (seen : List Str) : List Str → List Str
  | [] => []
  | x :: xs => if x ∈ seen then dedupFirstGo seen xs else x :: dedupFirstGo (seen ++ [x]) xs

/-- JS `Array.from(new Set(l))`: keep the first occurrence of each element. -/
def dedupFirst (l : List Str) : List Str := dedupFirstGo [] l

/- ### Question decomposer (`src/utils/question.ts`) -/

/-- Connector vocabulary checked by `analyzeQuestion` (source order). -/
def conjunctions : List Str :=
  [str "and", str "or", str "versus", str "vs", str "compared to",
   str "differences between"]

/-- Alternatives of the split regex `/\s+(?:and|or|versus|vs|compared to)\s+/i`.
Note `differences between` is checked by the connector test but absent here. -/
def splitConnectors : List Str :=
  [str "and", str "or", str "versus", str "vs", str "compared to"]

/-- Leading interrogative/auxiliary words stripped by `extractMainTopic`. -/
def questionWords : List Str :=
  [str "what", str "who", str "when", str "where", str "why", str "how",
   str "is", str "are", str "do", str "does", str "did", str "can",
   str "could", str "would", str "should", str "will"]

/-- Leading articles stripped by `extractMainTopic`. -/
def articles : List Str := [str "the", str "a", str "an"]

/-- Match the lowercase word `w` case-insensitively against a prefix of the
input, returning the remainder. -/
def stripCI : Str → Str → Option Str
  | [], rest => some rest
  | _ :: _, [] => none
  | w :: ws, c :: cs => if toLowerChar c = w then stripCI ws cs else none

/-- Match one regex alternative `w` followed by `\s+` (greedy), returning
the input after the matched word and whitespace run. -/
def matchWordThenWS (w : Str) (l : Str) : Option Str :=
  match stripCI w l with
  | none => none
  | some [] => none
  | some (c :: cs) => if isWS c then some ((c :: cs).dropWhile isWS) else none

/-- Try the alternatives of an anchored regex `^(w₁|w₂|…)\s+` in order,
moving to the next alternative when the trailing `\s+` fails, exactly as
regex alternation backtracks. -/
def stripLeadCI : List Str → Str → Str
  | [], l => l
  | w :: ws, l =>
    match matchWordThenWS w l with
    | some rest => rest
    | none => stripLeadCI ws l

/-- Topic extraction of `question.ts`: strip one leading question word, trim,
strip one leading article, trim; `none` when nothing remains. -/
def extractMainTopic (question : Str) : Option Str :=
  let withoutQuestionWords := trim (stripLeadCI questionWords question)
  let withoutArticles := trim (stripLeadCI articles withoutQuestionWords)
  if withoutArticles = [] then none else some withoutArticles

/-- Attempt to match `\s+(?:and|or|versus|vs|compared to)\s+` at the head of
`l`, returning the remainder after the match.  The connectors start with
non-whitespace, so the greedy whitespace runs never need to backtrack, and
no two alternatives can both complete at one position. -/
def connMatch (l : Str) : Option Str :=
  match l with
  | [] => none
  | c :: cs =>
    if isWS c then
      (splitConnectors.map (fun w => matchWordThenWS w (List.dropWhile isWS (c :: cs)))).foldr
        (fun o acc => match o with | some r => some r | none => acc) none
    else none

/-- Scanner for JS `cleanQuestion.split(/\s+(?:and|or|versus|vs|compared to)\s+/i)`:
left-to-right, leftmost match wins, separators are dropped.  `fuel` only
bounds recursion; every step consumes at least one input character, so the
initial `l.length + 1` is never exhausted. -/
def splitConnGo : Nat → Str → Str → List Str
  | 0, cur, _ => [cur.reverse]
  | _ + 1, cur, [] => [cur.reverse]
  | fuel + 1, cur, c :: rest =>
    match connMatch (c :: rest) with
    | some rem => cur.reverse :: splitConnGo fuel [] rem
    | none => splitConnGo fuel (c :: cur) rest

/-- JS split on the connector regex. -/
def splitConn (l : Str) : List Str := splitConnGo (l.length + 1) [] l

/-- The cleaned question: `question.replace(/\?/g, '').trim()`. -/
def cleanQuestion (question : Str) : Str := trim (removeQ question)

/-- Connector test of `analyzeQuestion`: some connector is a substring of
the lowercased cleaned question. -/
def hasConjunction (cleanQ : Str) : Bool :=
  conjunctions.any (fun conj => containsSub (toLower cleanQ) conj)

/-- Aspect template `What is <topic>?`. -/
def templateWhatIs (topic : Str) : Str := str "What is " ++ topic ++ str "?"

/-- Aspect template `What are the key features of <topic>?`. -/
def templateFeatures (topic : Str) : Str :=
  str "What are the key features of " ++ topic ++ str "?"

/-- Aspect template `What are the applications of <topic>?`. -/
def templateApplications (topic : Str) : Str :=
  str "What are the applications of " ++ topic ++ str "?"

/-- The question decomposer `analyzeQuestion` of `src/utils/question.ts`:
split on a connector when one occurs and the split yields more than one
part; otherwise fall back to the original question plus three aspect
templates over the extracted topic, deduplicated first-seen. -/
def analyzeQuestion (question : Str) : List Str :=
  let cleanQ := cleanQuestion question
  let viaSplit : Option (List Str) :=
    if hasConjunction cleanQ then
      let parts := splitConn cleanQ
      if 1 < parts.length then some (parts.map (fun part => trim part ++ str "?"))
      else none
    else none
  match viaSplit with
  | some result => result
  | none =>
    dedupFirst
      (question ::
        (match extractMainTopic cleanQ with
         | some mainTopic =>
           [templateWhatIs mainTopic, templateFeatures mainTopic,
            templateApplications mainTopic]
         | none => []))

/- ### Search results and relevance scoring (`src/utils/search.ts`) -/

/-- Scored search result.  `relevance` is optional in the source interface
(`relevance?: number`); scores carrying fractions are embedded as `ℚ`. -/
structure SearchResult where
  title : Str
  url : Str
  description : Str
  relevance : Option ℚ
deriving DecidableEq, Repr, Inhabited

/-- Query tokens of `calculateRelevance`: whitespace-split lowercased query
words longer than 2 characters. -/
def queryTokens (query : Str) : List Str :=
  (splitOnWSChar (toLower query)).filter (fun word => 2 < word.length)

/-- Count the tokens occurring as substrings of `text` (each token counted
once, independently of the other text). -/
def countMatches (tokens : List Str) (text : Str) : Nat :=
  (tokens.filter (fun word => containsSub text word)).length

/-- Title match count of `calculateRelevance`. -/
def titleMatches (query title : Str) : Nat :=
  countMatches (queryTokens query) (toLower title)

/-- Description match count of `calculateRelevance`. -/
def descriptionMatches (query description : Str) : Nat :=
  countMatches (queryTokens query) (toLower description)

/-- Relevance score of `src/utils/search.ts`: title matches weighted 3×,
normalized by four points per token, 0 when no token survives the length
filter.  The JS floating-point quotient is embedded as the exact rational. -/
def calculateRelevance (query title description : Str) : ℚ :=
  let maxPossibleScore : Nat := (queryTokens query).length * 4
  let actualScore : Nat := titleMatches query title * 3 + descriptionMatches query description
  if 0 < maxPossibleScore then (actualScore : ℚ) / (maxPossibleScore : ℚ) else 0

/- ### Result analysis (`src/utils/analysis.ts`) -/

/-- Stop-word list of `isStopWord` (source order, duplicates included). -/
def stopWords : List Str :=
  [str "a", str "an", str "the", str "and", str "or", str "but", str "if",
   str "because", str "as", str "what", str "which", str "this", str "that",
   str "these", str "those", str "then", str "just", str "so", str "than",
   str "such", str "both", str "through", str "about", str "for", str "is",
   str "of", str "while", str "during", str "to", str "from", str "in",
   str "out", str "on", str "off", str "over", str "under", str "again",
   str "further", str "then", str "once", str "here", str "there",
   str "when", str "where", str "why", str "how", str "all", str "any",
   str "both", str "each", str "few", str "more", str "most", str "other",
   str "some", str "such", str "no", str "nor", str "not", str "only",
   str "own", str "same", str "so", str "than", str "too", str "very",
   str "s", str "t", str "can", str "will", str "just", str "don",
   str "should", str "now"]

/-- JS `isStopWord`: membership of the lowercased word in the list. -/
def isStopWord (word : Str) : Bool := stopWords.contains (toLower word)

/-- Query tokens of `calculateSentenceRelevance`: non-stop-words longer
than 2 characters. -/
def sentenceQueryWords (query : Str) : List Str :=
  (splitOnWSChar (toLower query)).filter
    (fun word => !isStopWord word && 2 < word.length)

/-- Number of query tokens occurring in the lowercased sentence. -/
def sentenceMatchCount (sentence query : Str) : Nat :=
  ((sentenceQueryWords query).filter
    (fun word => containsSub (toLower sentence) word)).length

/-- Match percentage of `calculateSentenceRelevance`, 0 when no token. -/
def matchPercentage (sentence query : Str) : ℚ :=
  let qws := sentenceQueryWords query
  if 0 < qws.length then (sentenceMatchCount sentence query : ℚ) / (qws.length : ℚ) else 0

/-- Length factor of `calculateSentenceRelevance`:
`1 - min(|length - 100| / 100, 0.5)`, over exact rationals. -/
def lengthFactor (len : Nat) : ℚ := 1 - min (|(len : ℚ) - 100| / 100) (1 / 2)

/-- Sentence relevance of `src/utils/analysis.ts`:
`matchPercentage * 0.7 + lengthFactor * 0.3` (decimal weights embedded as
the rationals `7/10` and `3/10`). -/
def calculateSentenceRelevance (sentence query : Str) : ℚ :=
  matchPercentage sentence query * (7 / 10)
    + lengthFactor (toLower sentence).length * (3 / 10)

/-- Split a description into sentence fragments: JS
`text.split(/[.!?]+/)`, embedded per-character; the caller keeps only
fragments non-blank after trimming, which discards the extra empties the
per-character split produces for terminator runs. -/
def splitSentences (text : Str) : List Str :=
  text.foldr
    (fun c acc =>
      if c == '.' || c == '!' || c == '?' then [] :: acc
      else
        match acc with
        | [] => [[c]]
        | a :: as => (c :: a) :: as)
    [[]]

/-- Stable descending insertion by score: elements inserted right-to-left
settle after every earlier element with an equal or larger key, giving the
unique stable descending order mandated for JS `Array.prototype.sort`. -/
def insertDescBy {α : Type} (key : α → ℚ) (x : α) : List α → List α
  | [] => [x]
  | y :: ys => if key y ≤ key x then x :: y :: ys else y :: insertDescBy key x ys

/-- Stable descending sort by a rational key. -/
def sortDescBy {α : Type} (key : α → ℚ) (l : List α) : List α :=
  l.foldr (insertDescBy key) []

/-- JS `selectRelevantSentences`: score the non-blank sentence fragments,
sort stably by descending score, keep the top `maxSentences`, trim each. -/
def selectRelevantSentences (text query : Str) (maxSentences : Nat) : List Str :=
  let sentences := (splitSentences text).filter (fun s => 0 < (trim s).length)
  if sentences.length = 0 then [text]
  else
    let sorted := sortDescBy (fun s => calculateSentenceRelevance s query) sentences
    (sorted.take maxSentences).map trim

/-- JS `extractKeyInformation`: the two most relevant description
sentences, joined by a space. -/
def extractKeyInformation (result : SearchResult) (query : Str) : Str :=
  List.intercalate (str " ") (selectRelevantSentences result.description query 2)

/-- Decimal rendering of a number, for JS template interpolation. -/
def natStr (n : Nat) : Str := (Nat.repr n).toList

/-- Pair each element with its index (JS `map((x, index) => ...)`). -/
def withIdx {α : Type} (l : List α) : List (Nat × α) := l.enum

/-- JS `analyzeResults` of `src/utils/analysis.ts`: rank by relevance
descending (missing relevance read as 0), keep the top 5, format a
numbered analysis report. -/
def analyzeResults (results : List SearchResult) (query : Str) : Str :=
  if results.length = 0 then
    str "No results found for query: \"" ++ query ++ str "\""
  else
    let sortedResults := sortDescBy (fun r => r.relevance.getD 0) results
    let topResults := sortedResults.take 5
    let analysisPoints := (withIdx topResults).map
      (fun p =>
        natStr (p.1 + 1) ++ str ". " ++ p.2.title ++ str "\n   "
          ++ extractKeyInformation p.2 query ++ str "\n   Source: " ++ p.2.url)
    str "\nAnalysis for query: \"" ++ query ++ str "\"\n\nKey Information:\n"
      ++ List.intercalate (str "\n\n") analysisPoints
      ++ str "\n\nThis analysis is based on the top " ++ natStr topResults.length
      ++ str " most relevant results.\n"

/- ### Report synthesis (`src/utils/synthesis.ts`) -/

/-- Status of one sub-question. -/
inductive SQStatus where
  | pending
  | inProgress
  | completed
deriving DecidableEq, Repr, Inhabited

/-- Sub-question record of `src/types.ts`. -/
structure SubQuestion where
  id : Str
  question : Str
  status : SQStatus
  searchResults : Option (List SearchResult)
  analysis : Option Str
deriving DecidableEq, Repr, Inhabited

/-- Truthiness of `sq.analysis` in JS: present and non-empty. -/
def analysisTruthy (sq : SubQuestion) : Bool :=
  match sq.analysis with
  | none => false
  | some a => !a.isEmpty

/-- The completed sub-questions kept by `synthesizeReport`:
`status === 'completed' && sq.analysis` (truthy). -/
def completedOf (subQuestions : List SubQuestion) : List SubQuestion :=
  subQuestions.filter (fun sq => sq.status == SQStatus.completed && analysisTruthy sq)

/-- JS `generateIntroduction`. -/
def generateIntroduction (mainQuestion : Str) : Str :=
  str "This report presents a comprehensive analysis of the question: \""
    ++ mainQuestion
    ++ str "\". \nThe research was conducted using multiple sources and approaches to provide a thorough understanding of the topic."

/-- JS `generateCitations`: numbered `[n] title - url` lines, empty when
there are no search results. -/
def generateCitations (searchResults : List SearchResult) : Str :=
  if searchResults.length = 0 then []
  else
    str "**Sources:**\n"
      ++ List.intercalate (str "\n")
          ((withIdx searchResults).map
            (fun p => str "[" ++ natStr (p.1 + 1) ++ str "] " ++ p.2.title
              ++ str " - " ++ p.2.url))

/-- JS `generateSection`: section header from the question with `?`
stripped and trimmed, then the analysis, then citations. -/
def generateSection (question analysis : Str) (searchResults : List SearchResult) : Str :=
  str "## " ++ cleanQuestion question ++ str "\n\n" ++ analysis ++ str "\n\n"
    ++ generateCitations searchResults

/-- Topic extraction of `synthesis.ts` (same stripping as `question.ts` but
falling back to the whole question instead of `null`). -/
def extractMainTopicS (question : Str) : Str :=
  match extractMainTopic question with
  | some topic => topic
  | none => question

/-- JS `generateConclusion`. -/
def generateConclusion (mainQuestion : Str) (subQuestions : List SubQuestion) : Str :=
  str "This research has explored various aspects of "
    ++ extractMainTopicS mainQuestion
    ++ str ". \nThe findings from different sub-questions provide a comprehensive understanding of the topic.\nThe research was based on "
    ++ natStr subQuestions.length
    ++ str " sub-questions and utilized multiple sources to ensure accuracy and depth."

/-- All search results of a sub-question list, in stored order (missing
result lists read as empty). -/
def allResults (subQuestions : List SubQuestion) : List SearchResult :=
  subQuestions.flatMap (fun sq => sq.searchResults.getD [])

/-- One insertion step of the url-keyed JS `Map` in `generateSources`:
append the (title, url) pair unless the url key is already present. -/
def insertSource (acc : List (Str × Str)) (r : SearchResult) : List (Str × Str) :=
  if r.url ∈ acc.map Prod.snd then acc else acc ++ [(r.title, r.url)]

/-- The deduplicated (title, url) pairs of `generateSources`, in first-seen
insertion order (JS `Map` preserves insertion order and keeps the first
title stored for a key). -/
def sourcePairs (subQuestions : List SubQuestion) : List (Str × Str) :=
  (allResults subQuestions).foldl insertSource []

/-- JS `generateSources`: numbered `n. title - url` lines over the
deduplicated sources. -/
def generateSources (subQuestions : List SubQuestion) : Str :=
  List.intercalate (str "\n")
    ((withIdx (sourcePairs subQuestions)).map
      (fun p => natStr (p.1 + 1) ++ str ". " ++ p.2.1 ++ str " - " ++ p.2.2))

/-- Placeholder returned while no sub-question is completed. -/
def inProgressMsg (mainQuestion : Str) : Str :=
  str "Research is still in progress for question: \"" ++ mainQuestion ++ str "\""

/-- Message returned for an empty (or missing) sub-question list. -/
def noDataMsg (mainQuestion : Str) : Str :=
  str "No research data available for question: \"" ++ mainQuestion ++ str "\""

/-- The report section built from one completed sub-question
(`generateSection(sq.question, sq.analysis || '', sq.searchResults || [])`). -/
def sectionFor (sq : SubQuestion) : Str :=
  generateSection sq.question (sq.analysis.getD []) (sq.searchResults.getD [])

/-- JS `synthesizeReport` of `src/utils/synthesis.ts`. -/
def synthesizeReport (mainQuestion : Str) (subQuestions : List SubQuestion) : Str :=
  if subQuestions.length = 0 then noDataMsg mainQuestion
  else
    let completedSubQuestions := completedOf subQuestions
    if completedSubQuestions.length = 0 then inProgressMsg mainQuestion
    else
      let sections := completedSubQuestions.map sectionFor
      str "\n# Research Report: " ++ mainQuestion
        ++ str "\n\n## Introduction\n" ++ generateIntroduction mainQuestion
        ++ str "\n\n" ++ List.intercalate (str "\n\n") sections
        ++ str "\n\n## Conclusion\n" ++ generateConclusion mainQuestion completedSubQuestions
        ++ str "\n\n## Sources\n" ++ generateSources completedSubQuestions
        ++ str "\n"

/- ### Session orchestrator (`src/tools/sequentialThinking.ts`, `DeepResearchTool`) -/

/-- Session status enum of `src/types.ts` (`analyzing` is declared but never
assigned by the orchestrator). -/
inductive ResearchStatus where
  | planning
  | searching
  | analyzing
  | synthesizing
  | completed
deriving DecidableEq, Repr, Inhabited

/-- Step type enum of `src/types.ts`. -/
inductive StepType where
  | questionAnalysis
  | search
  | resultAnalysis
  | synthesis
  | followUp
deriving DecidableEq, Repr, Inhabited

/-- Research step record (`metadata` is never set by the orchestrator). -/
structure ResearchStep where
  id : Str
  stepType : StepType
  content : Str
  timestamp : Nat
deriving DecidableEq, Repr, Inhabited

/-- Session record of `src/types.ts`.  `question` is typed `string` in TS
but receives `params.query`, which can be `undefined` at runtime, hence
`Option Str` here. -/
structure ResearchData where
  id : Str
  question : Option Str
  subQuestions : List SubQuestion
  steps : List ResearchStep
  status : ResearchStatus
  report : Option Str
  startTime : Nat
  endTime : Option Nat
deriving DecidableEq, Repr, Inhabited

/-- The `researches : Map<string, ResearchData>` field, as an association
list in insertion order. -/
abbrev Store := List (Str × ResearchData)

/-- JS `Map.get`. -/
def lookupStore (store : Store) (key : Str) : Option ResearchData :=
  (store.find? (fun p => p.1 == key)).map Prod.snd

/-- JS `Map.set`: overwrite in place when the key exists, else append. -/
def setStore (store : Store) (key : Str) (value : ResearchData) : Store :=
  if store.any (fun p => p.1 == key) then
    store.map (fun p => if p.1 == key then (key, value) else p)
  else store ++ [(key, value)]

/-- Request parameters of the `deep_research` tool; absent JS fields are
`none` (`maxSearchesPerQuestion` is accepted by the schema but never read). -/
structure Params where
  query : Option Str
  maxSubQuestions : Option Nat
  researchId : Option Str
  action : Option Str
deriving DecidableEq, Repr, Inhabited

/-- Inputs one tool invocation reads from outside the core: `Date.now()`
(one invocation's timestamps collapse to one reading — the orchestrator
only records them), the `uuidv4()` draws, and the outcome of the single
`performSearch` call, `Except` error meaning the collaborator threw. -/
structure Effects where
  now : Nat
  freshId : Str
  stepId1 : Str
  stepId2 : Str
  searchOutcome : Except Str (List SearchResult)
deriving Repr, Inhabited

/-- Result payloads of the success responses, one shape per operation. -/
inductive ResultPayload where
  | startR (researchId : Str) (question : Option Str) (subQuestions : List Str)
      (status : ResearchStatus)
  | statusR (researchId : Str) (question : Option Str)
      (status : ResearchStatus) (subQuestions : List (Str × SQStatus))
      (steps : Nat) (startTime : Nat) (endTime : Option Nat)
  | continueDone (researchId : Str) (question : Option Str)
      (status : ResearchStatus) (message : Str)
  | continueProg (researchId : Str) (question : Option Str)
      (subQuestionCompleted : Str) (remainingSubQuestions : Nat)
      (status : ResearchStatus)
  | synthDone (researchId : Str) (question : Option Str)
      (status : ResearchStatus) (message : Str) (reportPreview : Str)
  | reportR (researchId : Str) (question : Option Str) (report : Option Str)
      (subQuestions : Nat) (steps : Nat) (startTime : Nat)
      (endTime : Option Nat) (duration : ℚ)
deriving DecidableEq, Repr

/-- The `MCPToolResponse` envelope. -/
structure MCPToolResponse where
  status : Str
  result : Option ResultPayload := none
  error : Option Str := none
deriving DecidableEq, Repr

/-- Error-envelope helper. -/
def errorResponse (msg : Str) : MCPToolResponse :=
  { status := str "error", error := some msg }

/-- JS falsiness of an optional string (`undefined` or `""`). -/
def strFalsy (s : Option Str) : Bool :=
  match s with
  | none => true
  | some l => l.isEmpty

/-- JS string interpolation of a possibly-undefined value. -/
def interp (s : Option Str) : Str :=
  match s with
  | none => str "undefined"
  | some l => l

/-- Update the content of the most recently appended step, embedding the JS
in-place mutation of the step object the orchestrator just pushed. -/
def setLastStepContent : List ResearchStep → Str → List ResearchStep
  | [], _ => []
  | [s], content => [{ s with content := content }]
  | s :: rest, content => s :: setLastStepContent rest content

/-- Replace the sub-question at index `i` (the JS mutation of the object
found inside the array). -/
def setSQ (subQuestions : List SubQuestion) (i : Nat) (f : SubQuestion → SubQuestion) :
    List SubQuestion :=
  match subQuestions.get? i with
  | some sq => subQuestions.set i (f sq)
  | none => subQuestions

/-- JS `maxSubQuestions || 5` capped by `Math.min(·, 10)` (0 is falsy). -/
def effectiveMax (maxSubQuestions : Option Nat) : Nat :=
  let m := match maxSubQuestions with
    | none => 5
    | some 0 => 5
    | some m => m
  min m 10

/-- `startResearch`: create and store the session, append the analysis
step, decompose the question, populate the sub-questions, move to
`searching`.  When `params.query` is `undefined` the `analyzeQuestion`
call throws a `TypeError` after the partial session is already stored; the
thrown message is abbreviated here. -/
def startResearch (params : Params) (eff : Effects) (store : Store) :
    Except Str MCPToolResponse × Store :=
  let researchId := eff.freshId
  let research : ResearchData :=
    { id := researchId, question := params.query, subQuestions := [],
      steps := [], status := ResearchStatus.planning, report := none,
      startTime := eff.now, endTime := none }
  let step : ResearchStep :=
    { id := eff.stepId1, stepType := StepType.questionAnalysis,
      content := str "Analyzing question: \"" ++ interp params.query ++ str "\"",
      timestamp := eff.now }
  let research1 : ResearchData := { research with steps := research.steps ++ [step] }
  match params.query with
  | none =>
    (Except.error (str "TypeError: Cannot read properties of undefined"),
     setStore store researchId research1)
  | some query =>
    let subQuestions := analyzeQuestion query
    let limitedSubQuestions := subQuestions.take (effectiveMax params.maxSubQuestions)
    let research2 : ResearchData :=
      { research1 with
        subQuestions := limitedSubQuestions.map
          (fun q => { id := [], question := q, status := SQStatus.pending,
                      searchResults := none, analysis := none }) }
    let research3 : ResearchData :=
      { research2 with
        steps := setLastStepContent research2.steps
          (str "Analyzed question: \"" ++ query ++ str "\"\nGenerated "
            ++ natStr research2.subQuestions.length ++ str " sub-questions:\n"
            ++ List.intercalate (str "\n")
                (research2.subQuestions.map (fun sq => str "- " ++ sq.question))) }
    let research4 : ResearchData := { research3 with status := ResearchStatus.searching }
    (Except.ok
      { status := str "success",
        result := some (ResultPayload.startR researchId params.query
          (research4.subQuestions.map (fun sq => sq.question)) research4.status) },
     setStore store researchId research4)

/-- `getResearchStatus`: read-only projection of one session. -/
def getResearchStatus (params : Params) (store : Store) :
    Except Str MCPToolResponse × Store :=
  match params.researchId with
  | none => (Except.ok (errorResponse (str "Research not found: undefined")), store)
  | some researchId =>
    if researchId.isEmpty then
      (Except.ok (errorResponse (str "Research not found: ")), store)
    else
      match lookupStore store researchId with
      | none =>
        (Except.ok (errorResponse (str "Research not found: " ++ researchId)), store)
      | some research =>
        (Except.ok
          { status := str "success",
            result := some (ResultPayload.statusR researchId research.question
              research.status
              (research.subQuestions.map (fun sq => (sq.question, sq.status)))
              research.steps.length research.startTime research.endTime) },
         store)

/-- `synthesizeResults`: append the synthesis step, synthesize and store
the report, mark the session completed with its end time, and answer with
a 500-character report preview. -/
def synthesizeResults (research : ResearchData) (eff : Effects) :
    MCPToolResponse × ResearchData :=
  let synthesisStep : ResearchStep :=
    { id := eff.stepId2, stepType := StepType.synthesis,
      content := str "Synthesizing research results", timestamp := eff.now }
  let r1 : ResearchData := { research with steps := research.steps ++ [synthesisStep] }
  let r2 : ResearchData := { r1 with status := ResearchStatus.synthesizing }
  let report := synthesizeReport (interp research.question) research.subQuestions
  let r3 : ResearchData := { r2 with report := some report }
  let r4 : ResearchData := { r3 with steps := setLastStepContent r3.steps (str "Synthesized research results") }
  let r5 : ResearchData := { r4 with status := ResearchStatus.completed, endTime := some eff.now }
  ({ status := str "success",
     result := some (ResultPayload.synthDone research.id research.question
       r5.status (str "Research completed") (report.take 500 ++ str "...")) },
   r5)

/-- `continueResearch`: no-op on a completed session; otherwise advance the
first pending sub-question through search and analysis, or synthesize when
none is pending.  A collaborator failure propagates as a thrown error
after the sub-question was already marked in-progress and the search step
appended — the source has no rollback. -/
def continueResearch (params : Params) (eff : Effects) (store : Store) :
    Except Str MCPToolResponse × Store :=
  if strFalsy params.researchId
      || (lookupStore store (interp params.researchId)).isNone then
    (Except.ok (errorResponse (str "Research not found: " ++ interp params.researchId)),
     store)
  else
    match lookupStore store (interp params.researchId) with
    | none => (Except.ok (errorResponse (str "Research not found: " ++ interp params.researchId)), store)
    | some research =>
      let researchId := interp params.researchId
      if research.status = ResearchStatus.completed then
        (Except.ok
          { status := str "success",
            result := some (ResultPayload.continueDone researchId research.question
              research.status (str "Research is already completed")) },
         store)
      else
        match research.subQuestions.findIdx? (fun sq => sq.status == SQStatus.pending) with
        | none =>
          let (resp, research5) := synthesizeResults research eff
          (Except.ok resp, setStore store researchId research5)
        | some i =>
          let questionText :=
            match research.subQuestions.get? i with
            | some sq => sq.question
            | none => []
          let r1 : ResearchData := { research with
            subQuestions := setSQ research.subQuestions i
              (fun sq => { sq with status := SQStatus.inProgress }) }
          let searchStep : ResearchStep :=
            { id := eff.stepId1, stepType := StepType.search,
              content := str "Searching for: \"" ++ questionText ++ str "\"",
              timestamp := eff.now }
          let r2 : ResearchData := { r1 with steps := r1.steps ++ [searchStep] }
          match eff.searchOutcome with
          | Except.error e => (Except.error e, setStore store researchId r2)
          | Except.ok searchResults =>
            let r3 : ResearchData := { r2 with
              subQuestions := setSQ r2.subQuestions i
                (fun sq => { sq with searchResults := some searchResults }) }
            let r4 : ResearchData := { r3 with
              steps := setLastStepContent r3.steps
                (str "Searched for: \"" ++ questionText ++ str "\"\nFound "
                  ++ natStr searchResults.length ++ str " results") }
            let analysisStep : ResearchStep :=
              { id := eff.stepId2, stepType := StepType.resultAnalysis,
                content := str "Analyzing results for: \"" ++ questionText ++ str "\"",
                timestamp := eff.now }
            let r5 : ResearchData := { r4 with steps := r4.steps ++ [analysisStep] }
            let analysis := analyzeResults searchResults questionText
            let r6 : ResearchData := { r5 with
              subQuestions := setSQ r5.subQuestions i
                (fun sq => { sq with analysis := some analysis }) }
            let r7 : ResearchData := { r6 with
              steps := setLastStepContent r6.steps
                (str "Analyzed results for: \"" ++ questionText ++ str "\"") }
            let r8 : ResearchData := { r7 with
              subQuestions := setSQ r7.subQuestions i
                (fun sq => { sq with status := SQStatus.completed }) }
            (Except.ok
              { status := str "success",
                result := some (ResultPayload.continueProg researchId r8.question
                  questionText
                  (r8.subQuestions.filter (fun sq => sq.status == SQStatus.pending)).length
                  r8.status) },
             setStore store researchId r8)

/-- `generateReport`: `StateError` before completion, else the stored
report with `duration = (endTime - startTime) / 1000` (the JS `endTime!`
non-null assertion is embedded as `getD 0`; the division by 1000 converts
milliseconds to seconds). -/
def generateReport (params : Params) (store : Store) :
    Except Str MCPToolResponse × Store :=
  if strFalsy params.researchId
      || (lookupStore store (interp params.researchId)).isNone then
    (Except.ok (errorResponse (str "Research not found: " ++ interp params.researchId)),
     store)
  else
    match lookupStore store (interp params.researchId) with
    | none => (Except.ok (errorResponse (str "Research not found: " ++ interp params.researchId)), store)
    | some research =>
      if research.status ≠ ResearchStatus.completed then
        (Except.ok (errorResponse (str "Research is not yet completed")), store)
      else
        (Except.ok
          { status := str "success",
            result := some (ResultPayload.reportR (interp params.researchId)
              research.question research.report research.subQuestions.length
              research.steps.length research.startTime research.endTime
              (((research.endTime.getD 0 : ℚ) - (research.startTime : ℚ)) / 1000)) },
         store)

/-- The effective action: JS `params.action || 'start'`. -/
def effectiveAction (action : Option Str) : Str :=
  match action with
  | none => str "start"
  | some a => if a.isEmpty then str "start" else a

/-- `execute` of `DeepResearchTool`: validation, dispatch on the action,
and the surrounding `try/catch` that converts any thrown error into an
error response (state mutated before the throw stays mutated). -/
def execute (params : Params) (eff : Effects) (store : Store) :
    MCPToolResponse × Store :=
  if strFalsy params.query && strFalsy params.researchId then
    (errorResponse (str "Either query or researchId is required"), store)
  else
    let action := effectiveAction params.action
    let (outcome, store1) :=
      if action = str "start" then startResearch params eff store
      else if action = str "status" then getResearchStatus params store
      else if action = str "continue" then continueResearch params eff store
      else if action = str "report" then generateReport params store
      else (Except.ok (errorResponse (str "Invalid action: " ++ action)), store)
    match outcome with
    | Except.ok resp => (resp, store1)
    | Except.error msg => (errorResponse msg, store1)

/- ### Supporting lemmas -/

/-- The head of a `dropWhile` result never satisfies the predicate. -/
theorem head_dropWhile (p : Char → Bool) (l : Str) (c : Char)
    (h : (l.dropWhile p).head? = some c) : p c = false := by
  induction l with
  | nil => simp [List.dropWhile] at h
  | cons a l ih =>
    by_cases ha : p a
    · rw [List.dropWhile_cons_of_pos ha] at h
      exact ih h
    · rw [List.dropWhile_cons_of_neg ha] at h
      simp only [List.head?_cons, Option.some.injEq] at h
      subst h
      simpa using ha

/-- Membership is preserved going back from a `dropWhile` result. -/
theorem mem_of_mem_dropWhile (p : Char → Bool) (l : Str) (a : Char)
    (h : a ∈ l.dropWhile p) : a ∈ l :=
  (List.dropWhile_suffix p).sublist.mem h

/-- Membership is preserved going back from `dropTrail`. -/
theorem mem_of_mem_dropTrail (l : Str) (a : Char) (h : a ∈ dropTrail l) : a ∈ l := by
  unfold dropTrail at h
  rw [List.mem_reverse] at h
  exact List.mem_reverse.mp (mem_of_mem_dropWhile isWS l.reverse a h)

/-- Membership is preserved going back from `trim`. -/
theorem mem_of_mem_trim (l : Str) (a : Char) (h : a ∈ trim l) : a ∈ l :=
  mem_of_mem_dropWhile isWS l a (mem_of_mem_dropTrail (l.dropWhile isWS) a h)

/-- A successful `stripCI` match returns a suffix of the input. -/
theorem stripCI_suffix (w : Str) : ∀ (l r : Str), stripCI w l = some r → r <:+ l := by
  induction w with
  | nil =>
    intro l r h
    simp only [stripCI, Option.some.injEq] at h
    exact h ▸ List.suffix_refl l
  | cons x ws ih =>
    intro l r h
    cases l with
    | nil => simp [stripCI] at h
    | cons c cs =>
      simp only [stripCI] at h
      by_cases hc : toLowerChar c = x
      · rw [if_pos hc] at h
        exact (ih cs r h).trans (List.suffix_cons c cs)
      · rw [if_neg hc] at h
        cases h

/-- Membership is preserved going back from a `matchWordThenWS` remainder. -/
theorem mem_of_matchWordThenWS (w l r : Str) (a : Char)
    (h : matchWordThenWS w l = some r) (ha : a ∈ r) : a ∈ l := by
  unfold matchWordThenWS at h
  cases hs : stripCI w l with
  | none => rw [hs] at h; cases h
  | some rest =>
    rw [hs] at h
    cases rest with
    | nil => cases h
    | cons c cs =>
      dsimp only at h
      by_cases hc : isWS c
      · rw [if_pos hc] at h
        simp only [Option.some.injEq] at h
        subst h
        exact (stripCI_suffix w l (c :: cs) hs).sublist.mem
          (mem_of_mem_dropWhile isWS (c :: cs) a ha)
      · rw [if_neg hc] at h
        cases h

/-- Membership is preserved going back from `stripLeadCI`. -/
theorem mem_of_mem_stripLeadCI (ws : List Str) (l : Str) (a : Char)
    (h : a ∈ stripLeadCI ws l) : a ∈ l := by
  induction ws with
  | nil => exact h
  | cons w rest ih =>
    simp only [stripLeadCI] at h
    cases hm : matchWordThenWS w l with
    | none => rw [hm] at h; exact ih h
    | some r => rw [hm] at h; exact mem_of_matchWordThenWS w l r a hm h

/-- A trimmed string stays fixed under trailing-whitespace removal. -/
theorem trim_reverse_dropWhile (l : Str) :
    (trim l).reverse.dropWhile isWS = (trim l).reverse := by
  unfold trim dropTrail
  rw [List.reverse_reverse]
  exact List.dropWhile_idempotent isWS ((l.dropWhile isWS).reverse)

/-- Appending a word whose last character is not whitespace to a
non-whitespace-headed prefix is `trim`-stable. -/
theorem trim_concat (b : Char) (B t : Str) (hb : isWS b = false)
    (ht : t.reverse.dropWhile isWS = t.reverse) (hne : t ≠ []) :
    trim ((b :: B) ++ t) = (b :: B) ++ t := by
  obtain ⟨y, ys, hrev⟩ : ∃ y ys, t.reverse = y :: ys := by
    cases hre : t.reverse with
    | nil =>
      exact absurd (by simpa using congrArg List.reverse hre) hne
    | cons y ys => exact ⟨y, ys, rfl⟩
  have hy : isWS y = false := by
    apply head_dropWhile isWS t.reverse
    rw [ht, hrev]
    rfl
  unfold trim dropTrail
  rw [List.cons_append, List.dropWhile_cons_of_neg (by simp [hb]), ← List.cons_append,
    List.reverse_append, hrev, List.cons_append, List.dropWhile_cons_of_neg (by simp [hy]),
    ← List.cons_append, ← hrev, ← List.reverse_append, List.reverse_reverse]

/-- Facts about a successfully extracted topic: it is non-empty, carries no
trailing whitespace, and all its characters come from the input. -/
theorem extractMainTopic_facts (c t : Str) (h : extractMainTopic c = some t) :
    t ≠ [] ∧ t.reverse.dropWhile isWS = t.reverse ∧ ∀ a ∈ t, a ∈ c := by
  unfold extractMainTopic at h
  by_cases he : trim (stripLeadCI articles (trim (stripLeadCI questionWords c))) = []
  · rw [if_pos he] at h
    cases h
  · rw [if_neg he] at h
    simp only [Option.some.injEq] at h
    subst h
    refine ⟨he, trim_reverse_dropWhile _, ?_⟩
    intro a ha
    exact mem_of_mem_stripLeadCI _ _ _
      (mem_of_mem_trim _ _
        (mem_of_mem_stripLeadCI _ _ _ (mem_of_mem_trim _ _ ha)))

/-- No character of a cleaned question is a question mark. -/
theorem mem_cleanQuestion_ne_qmark (q : Str) (a : Char) (h : a ∈ cleanQuestion q) :
    a ≠ '?' := by
  unfold cleanQuestion at h
  have h2 := mem_of_mem_trim _ _ h
  unfold removeQ at h2
  simpa using (List.mem_filter.mp h2).2

/-- Question marks vanish from a topic appended between clean fragments. -/
theorem removeQ_topic_append (A : Str) (t : Str) (hA : removeQ A = A)
    (hq : ∀ a ∈ t, a ≠ '?') : removeQ (A ++ t ++ str "?") = A ++ t := by
  unfold removeQ at hA ⊢
  rw [List.filter_append, List.filter_append, hA,
    List.filter_eq_self.mpr (fun a ha => by simpa using hq a ha)]
  simp [str]

/-- Cleaning the `What is` template exposes the raw concatenation. -/
theorem cleanQuestion_whatIs (t : Str)
    (hrev : t.reverse.dropWhile isWS = t.reverse) (hne : t ≠ [])
    (hq : ∀ a ∈ t, a ≠ '?') :
    cleanQuestion (templateWhatIs t) = str "What is " ++ t := by
  unfold cleanQuestion templateWhatIs
  rw [removeQ_topic_append (str "What is ") t rfl hq]
  exact trim_concat 'W' (str "hat is ") t (by decide) hrev hne

/-- Cleaning the `key features` template exposes the raw concatenation. -/
theorem cleanQuestion_features (t : Str)
    (hrev : t.reverse.dropWhile isWS = t.reverse) (hne : t ≠ [])
    (hq : ∀ a ∈ t, a ≠ '?') :
    cleanQuestion (templateFeatures t) = str "What are the key features of " ++ t := by
  unfold cleanQuestion templateFeatures
  rw [removeQ_topic_append (str "What are the key features of ") t rfl hq]
  exact trim_concat 'W' (str "hat are the key features of ") t (by decide) hrev hne

/-- Cleaning the `applications` template exposes the raw concatenation. -/
theorem cleanQuestion_applications (t : Str)
    (hrev : t.reverse.dropWhile isWS = t.reverse) (hne : t ≠ [])
    (hq : ∀ a ∈ t, a ≠ '?') :
    cleanQuestion (templateApplications t) = str "What are the applications of " ++ t := by
  unfold cleanQuestion templateApplications
  rw [removeQ_topic_append (str "What are the applications of ") t rfl hq]
  exact trim_concat 'W' (str "hat are the applications of ") t (by decide) hrev hne

/-- Topic re-extraction from the `What is` template keeps the `is` prelude:
the regex strips only the single word `What`. -/
theorem extractMainTopic_whatIs (t : Str)
    (hrev : t.reverse.dropWhile isWS = t.reverse) (hne : t ≠ [])
    (hq : ∀ a ∈ t, a ≠ '?') :
    extractMainTopic (cleanQuestion (templateWhatIs t)) = some (str "is " ++ t) := by
  rw [cleanQuestion_whatIs t hrev hne hq]
  unfold extractMainTopic
  dsimp only
  rw [show stripLeadCI questionWords (str "What is " ++ t) = str "is " ++ t from rfl]
  have h3 : trim (str "is " ++ t) = str "is " ++ t :=
    trim_concat 'i' (str "s ") t (by decide) hrev hne
  rw [h3,
    show stripLeadCI articles (str "is " ++ t) = str "is " ++ t from rfl, h3,
    if_neg (by simp [str])]

/-- Topic re-extraction from the `key features` template keeps the `are`
prelude. -/
theorem extractMainTopic_features (t : Str)
    (hrev : t.reverse.dropWhile isWS = t.reverse) (hne : t ≠ [])
    (hq : ∀ a ∈ t, a ≠ '?') :
    extractMainTopic (cleanQuestion (templateFeatures t))
      = some (str "are the key features of " ++ t) := by
  rw [cleanQuestion_features t hrev hne hq]
  unfold extractMainTopic
  dsimp only
  rw [show stripLeadCI questionWords (str "What are the key features of " ++ t)
      = str "are the key features of " ++ t from rfl]
  have h3 : trim (str "are the key features of " ++ t)
      = str "are the key features of " ++ t :=
    trim_concat 'a' (str "re the key features of ") t (by decide) hrev hne
  rw [h3,
    show stripLeadCI articles (str "are the key features of " ++ t)
      = str "are the key features of " ++ t from rfl, h3,
    if_neg (by simp [str])]

/-- Topic re-extraction from the `applications` template keeps the `are`
prelude. -/
theorem extractMainTopic_applications (t : Str)
    (hrev : t.reverse.dropWhile isWS = t.reverse) (hne : t ≠ [])
    (hq : ∀ a ∈ t, a ≠ '?') :
    extractMainTopic (cleanQuestion (templateApplications t))
      = some (str "are the applications of " ++ t) := by
  rw [cleanQuestion_applications t hrev hne hq]
  unfold extractMainTopic
  dsimp only
  rw [show stripLeadCI questionWords (str "What are the applications of " ++ t)
      = str "are the applications of " ++ t from rfl]
  have h3 : trim (str "are the applications of " ++ t)
      = str "are the applications of " ++ t :=
    trim_concat 'a' (str "re the applications of ") t (by decide) hrev hne
  rw [h3,
    show stripLeadCI articles (str "are the applications of " ++ t)
      = str "are the applications of " ++ t from rfl, h3,
    if_neg (by simp [str])]

/-- C4: for a question without a connector whose extracted topic is
non-empty, `analyzeQuestion` returns exactly the original question plus
the three aspect templates; the first-seen deduplication removes nothing
because re-extracting a topic from any template always yields a strictly
longer topic, so none of the four strings can coincide. -/
theorem analyzeQuestion_no_connector_four (question topic : Str)
    (hconj : hasConjunction (cleanQuestion question) = false)
    (htop : extractMainTopic (cleanQuestion question) = some topic) :
    analyzeQuestion question
      = [question, templateWhatIs topic, templateFeatures topic,
         templateApplications topic]
    ∧ (analyzeQuestion question).length = 4 := by
  obtain ⟨hne, hrev, hmem⟩ := extractMainTopic_facts _ _ htop
  have hqm : ∀ a ∈ topic, a ≠ '?' :=
    fun a ha => mem_cleanQuestion_ne_qmark question a (hmem a ha)
  have hq1 : question ≠ templateWhatIs topic := by
    intro he
    rw [he, extractMainTopic_whatIs topic hrev hne hqm] at htop
    have hlen := congrArg List.length (Option.some.inj htop)
    rw [List.length_append, show (str "is ").length = 3 from rfl] at hlen
    omega
  have hq2 : question ≠ templateFeatures topic := by
    intro he
    rw [he, extractMainTopic_features topic hrev hne hqm] at htop
    have hlen := congrArg List.length (Option.some.inj htop)
    rw [List.length_append,
      show (str "are the key features of ").length = 24 from rfl] at hlen
    omega
  have hq3 : question ≠ templateApplications topic := by
    intro he
    rw [he, extractMainTopic_applications topic hrev hne hqm] at htop
    have hlen := congrArg List.length (Option.some.inj htop)
    rw [List.length_append,
      show (str "are the applications of ").length = 24 from rfl] at hlen
    omega
  have h12 : templateWhatIs topic ≠ templateFeatures topic := by
    intro he
    unfold templateWhatIs templateFeatures at he
    have hlen := congrArg List.length he
    simp only [List.length_append] at hlen
    rw [show (str "What is ").length = 8 from rfl,
      show (str "What are the key features of ").length = 29 from rfl] at hlen
    omega
  have h13 : templateWhatIs topic ≠ templateApplications topic := by
    intro he
    unfold templateWhatIs templateApplications at he
    have hlen := congrArg List.length he
    simp only [List.length_append] at hlen
    rw [show (str "What is ").length = 8 from rfl,
      show (str "What are the applications of ").length = 29 from rfl] at hlen
    omega
  have h23 : templateFeatures topic ≠ templateApplications topic := by
    intro he
    unfold templateFeatures templateApplications at he
    rw [List.append_assoc, List.append_assoc] at he
    exact absurd (List.append_inj he rfl).1 (by decide)
  have hform : analyzeQuestion question
      = dedupFirst [question, templateWhatIs topic, templateFeatures topic,
          templateApplications topic] := by
    simp only [analyzeQuestion, hconj, Bool.false_eq_true, if_false, htop]
  have hd : dedupFirst [question, templateWhatIs topic, templateFeatures topic,
      templateApplications topic]
      = [question, templateWhatIs topic, templateFeatures topic,
         templateApplications topic] := by
    simp [dedupFirst, dedupFirstGo, Ne.symm hq1, Ne.symm hq2, Ne.symm hq3,
      Ne.symm h12, Ne.symm h13, Ne.symm h23]
  refine ⟨hform.trans hd, ?_⟩
  rw [hform.trans hd]
  rfl

/-- C3 (amended): when the cleaned question contains a connector AND the
connector-pattern split yields at least two parts, `analyzeQuestion`
returns exactly the trimmed parts suffixed with `?`, in left-to-right
order — at least two of them, each ending in `?`.  (When the split yields
fewer than two parts — e.g. the connector was `differences between`, which
the split regex omits — the decomposer falls back to the aspect branch.) -/
theorem analyzeQuestion_connector_split (question : Str)
    (h1 : hasConjunction (cleanQuestion question) = true)
    (h2 : 1 < (splitConn (cleanQuestion question)).length) :
    analyzeQuestion question
      = (splitConn (cleanQuestion question)).map (fun part => trim part ++ str "?")
    ∧ 2 ≤ (analyzeQuestion question).length
    ∧ ∀ s ∈ analyzeQuestion question, s.getLast? = some '?' := by
  have heq : analyzeQuestion question
      = (splitConn (cleanQuestion question)).map (fun part => trim part ++ str "?") := by
    simp only [analyzeQuestion, h1, if_true, if_pos h2]
  refine ⟨heq, ?_, ?_⟩
  · rw [heq, List.length_map]
    omega
  · intro s hs
    rw [heq] at hs
    obtain ⟨part, _, rfl⟩ := List.mem_map.mp hs
    show (trim part ++ ['?']).getLast? = some '?'
    exact List.getLast?_concat _

/-- Witness for the amended C3 at the question `a and b`. -/
theorem analyzeQuestion_connector_split_witness :
    analyzeQuestion (str "a and b")
      = (splitConn (cleanQuestion (str "a and b"))).map (fun part => trim part ++ str "?")
    ∧ 2 ≤ (analyzeQuestion (str "a and b")).length
    ∧ ∀ s ∈ analyzeQuestion (str "a and b"), s.getLast? = some '?' :=
  analyzeQuestion_connector_split (str "a and b") (by decide) (by decide)

/-- C3 counterexample: `differences between x` contains the connector
`differences between`, yet the first decomposition output is the original
question verbatim, which does not end in `?` — the split regex omits that
connector, so the aspect fallback runs instead. -/
theorem analyzeQuestion_connector_counterexample :
    hasConjunction (cleanQuestion (str "differences between x")) = true
    ∧ ¬ (∀ s ∈ analyzeQuestion (str "differences between x"),
          s.getLast? = some '?') := by
  decide

/-- C4 witness at the question `What is x` (whose extracted topic is
`is x`). -/
theorem analyzeQuestion_no_connector_four_witness :
    analyzeQuestion (str "What is x")
      = [str "What is x", templateWhatIs (str "is x"),
         templateFeatures (str "is x"), templateApplications (str "is x")]
    ∧ (analyzeQuestion (str "What is x")).length = 4 :=
  analyzeQuestion_no_connector_four (str "What is x") (str "is x")
    (by decide) (by decide)

/-- C5: the relevance score always lies in `[0, 1]`; it is 0 when no query
token survives the length filter, and otherwise equals
`(titleMatches * 3 + descriptionMatches) / (tokenCount * 4)`. -/
theorem calculateRelevance_spec (query title description : Str) :
    0 ≤ calculateRelevance query title description
    ∧ calculateRelevance query title description ≤ 1
    ∧ ((queryTokens query).length = 0 → calculateRelevance query title description = 0)
    ∧ (0 < (queryTokens query).length →
        calculateRelevance query title description
          = ((titleMatches query title : ℚ) * 3 + (descriptionMatches query description : ℚ))
              / (((queryTokens query).length : ℚ) * 4)) := by
  unfold calculateRelevance
  dsimp only
  by_cases hn : 0 < (queryTokens query).length * 4
  · rw [if_pos hn]
    have htm : titleMatches query title ≤ (queryTokens query).length := by
      unfold titleMatches countMatches
      exact List.length_filter_le _ _
    have hdm : descriptionMatches query description ≤ (queryTokens query).length := by
      unfold descriptionMatches countMatches
      exact List.length_filter_le _ _
    refine ⟨div_nonneg (Nat.cast_nonneg _) (Nat.cast_nonneg _), ?_, ?_, ?_⟩
    · rw [div_le_one (by exact_mod_cast hn)]
      have : titleMatches query title * 3 + descriptionMatches query description
          ≤ (queryTokens query).length * 4 := by omega
      exact_mod_cast this
    · intro h0
      omega
    · intro _
      push_cast
      ring_nf
  · rw [if_neg hn]
    refine ⟨le_refl 0, by norm_num, fun _ => rfl, fun hpos => absurd (by omega : 0 < (queryTokens query).length * 4) hn⟩

/-- C5 witness at a concrete query, title and description. -/
theorem calculateRelevance_spec_witness :
    0 ≤ calculateRelevance (str "solar energy") (str "Solar power") (str "about energy")
    ∧ calculateRelevance (str "solar energy") (str "Solar power") (str "about energy") ≤ 1
    ∧ ((queryTokens (str "solar energy")).length = 0 →
        calculateRelevance (str "solar energy") (str "Solar power") (str "about energy") = 0)
    ∧ (0 < (queryTokens (str "solar energy")).length →
        calculateRelevance (str "solar energy") (str "Solar power") (str "about energy")
          = ((titleMatches (str "solar energy") (str "Solar power") : ℚ) * 3
              + (descriptionMatches (str "solar energy") (str "about energy") : ℚ))
              / (((queryTokens (str "solar energy")).length : ℚ) * 4)) :=
  calculateRelevance_spec (str "solar energy") (str "Solar power") (str "about energy")

/-- C10: the sentence score always lies in `[0.15, 1]`: the length factor
is bounded below by `1/2`, so even a sentence matching no query token
scores at least `3/20 = 0.15 > 0`. -/
theorem calculateSentenceRelevance_bounds (sentence query : Str) :
    1 / 2 ≤ lengthFactor (toLower sentence).length
    ∧ 3 / 20 ≤ calculateSentenceRelevance sentence query
    ∧ calculateSentenceRelevance sentence query ≤ 1
    ∧ 0 < calculateSentenceRelevance sentence query := by
  have hlf2 : 1 / 2 ≤ lengthFactor (toLower sentence).length := by
    unfold lengthFactor
    have := min_le_right (|((toLower sentence).length : ℚ) - 100| / 100) (1 / 2)
    linarith
  have hlf1 : lengthFactor (toLower sentence).length ≤ 1 := by
    unfold lengthFactor
    have h0 : 0 ≤ min (|((toLower sentence).length : ℚ) - 100| / 100) (1 / 2) :=
      le_min (by positivity) (by norm_num)
    linarith
  have hmp0 : 0 ≤ matchPercentage sentence query := by
    unfold matchPercentage
    dsimp only
    by_cases h : 0 < (sentenceQueryWords query).length
    · rw [if_pos h]
      exact div_nonneg (Nat.cast_nonneg _) (Nat.cast_nonneg _)
    · rw [if_neg h]
  have hmp1 : matchPercentage sentence query ≤ 1 := by
    unfold matchPercentage
    dsimp only
    by_cases h : 0 < (sentenceQueryWords query).length
    · rw [if_pos h, div_le_one (by exact_mod_cast h)]
      have : sentenceMatchCount sentence query ≤ (sentenceQueryWords query).length := by
        unfold sentenceMatchCount
        exact List.length_filter_le _ _
      exact_mod_cast this
    · rw [if_neg h]
      norm_num
  unfold calculateSentenceRelevance
  exact ⟨hlf2, by linarith, by linarith, by linarith⟩

/-- The urls of the url-keyed Map fold refine the generic first-seen
deduplication of the url sequence. -/
theorem foldl_insertSource_map_snd (rs : List SearchResult) :
    ∀ acc : List (Str × Str),
      ((rs.foldl insertSource acc).map Prod.snd)
        = acc.map Prod.snd
            ++ dedupFirstGo (acc.map Prod.snd) (rs.map (fun r => r.url)) := by
  induction rs with
  | nil =>
    intro acc
    simp [dedupFirstGo]
  | cons r rs ih =>
    intro acc
    simp only [List.foldl_cons, List.map_cons, dedupFirstGo]
    by_cases h : r.url ∈ acc.map Prod.snd
    · rw [show insertSource acc r = acc from by unfold insertSource; rw [if_pos h],
        if_pos h, ih acc]
    · rw [show insertSource acc r = acc ++ [(r.title, r.url)] from by
          unfold insertSource; rw [if_neg h],
        if_neg h, ih (acc ++ [(r.title, r.url)])]
      simp [List.append_assoc]

/-- Unfolding equation of `dedupFirstGo` at a cons cell. -/
theorem dedupFirstGo_cons (seen : List Str) (x : Str) (xs : List Str) :
    dedupFirstGo seen (x :: xs)
      = if x ∈ seen then dedupFirstGo seen xs
        else x :: dedupFirstGo (seen ++ [x]) xs := rfl

/-- First-seen deduplication yields no duplicates, and nothing already
seen. -/
theorem dedupFirstGo_nodup (l : List Str) :
    ∀ seen, (dedupFirstGo seen l).Nodup ∧ ∀ x ∈ dedupFirstGo seen l, x ∉ seen := by
  induction l with
  | nil =>
    intro seen
    simp [dedupFirstGo]
  | cons x xs ih =>
    intro seen
    by_cases h : x ∈ seen
    · rw [dedupFirstGo_cons, if_pos h]
      exact ih seen
    · rw [dedupFirstGo_cons, if_neg h]
      obtain ⟨hnd, hmem⟩ := ih (seen ++ [x])
      refine ⟨List.Nodup.cons ?_ hnd, ?_⟩
      · intro hx
        exact hmem x hx (by simp)
      · intro y hy
        rcases List.mem_cons.mp hy with hyx | hyr
        · exact hyx ▸ h
        · intro hys
          exact hmem y hyr (by simp [hys])

/-- The urls rendered by `generateSources` are exactly the first-seen
deduplication of all result urls: no duplicates, first occurrences, in
order. -/
theorem sourcePairs_urls (subQuestions : List SubQuestion) :
    (sourcePairs subQuestions).map Prod.snd
        = dedupFirst ((allResults subQuestions).map (fun r => r.url))
    ∧ ((sourcePairs subQuestions).map Prod.snd).Nodup := by
  have h := foldl_insertSource_map_snd (allResults subQuestions) []
  simp only [List.map_nil, List.nil_append] at h
  unfold sourcePairs dedupFirst
  rw [h]
  exact ⟨rfl, (dedupFirstGo_nodup _ []).1⟩

/-- C6 (amended): for a NON-EMPTY sub-question list, `synthesizeReport`
returns the in-progress placeholder when no sub-question is completed with
non-empty analysis (the empty list instead yields the no-research-data
message), and otherwise assembles a report containing one section per
completed sub-question — each headed by `## ` plus the sub-question text
with `?` stripped — and a Sources list whose urls are deduplicated to
first occurrences in first-seen order. -/
theorem synthesizeReport_structure (mainQuestion : Str) (subQuestions : List SubQuestion)
    (h : subQuestions ≠ []) :
    (completedOf subQuestions = [] →
      synthesizeReport mainQuestion subQuestions = inProgressMsg mainQuestion)
    ∧ (completedOf subQuestions ≠ [] →
        (∃ pre post, synthesizeReport mainQuestion subQuestions
          = pre ++ List.intercalate (str "\n\n")
              ((completedOf subQuestions).map sectionFor) ++ post)
        ∧ (∀ sq ∈ completedOf subQuestions,
            ∃ rest, sectionFor sq = str "## " ++ cleanQuestion sq.question ++ rest)
        ∧ (sourcePairs (completedOf subQuestions)).map Prod.snd
            = dedupFirst ((allResults (completedOf subQuestions)).map (fun r => r.url))
        ∧ ((sourcePairs (completedOf subQuestions)).map Prod.snd).Nodup) := by
  have hlen : ¬ subQuestions.length = 0 := by
    simpa [List.length_eq_zero] using h
  constructor
  · intro hc
    unfold synthesizeReport
    rw [if_neg hlen]
    dsimp only
    rw [if_pos (by rw [hc]; rfl)]
  · intro hc
    have hclen : ¬ (completedOf subQuestions).length = 0 := by
      simpa [List.length_eq_zero] using hc
    refine ⟨?_, ?_, (sourcePairs_urls _).1, (sourcePairs_urls _).2⟩
    · refine ⟨str "\n# Research Report: " ++ mainQuestion ++ str "\n\n## Introduction\n"
        ++ generateIntroduction mainQuestion ++ str "\n\n",
        str "\n\n## Conclusion\n" ++ generateConclusion mainQuestion (completedOf subQuestions)
        ++ str "\n\n## Sources\n" ++ generateSources (completedOf subQuestions)
        ++ str "\n", ?_⟩
      unfold synthesizeReport
      rw [if_neg hlen]
      dsimp only
      rw [if_neg hclen]
      simp [List.append_assoc]
    · intro sq _
      refine ⟨str "\n\n" ++ sq.analysis.getD [] ++ str "\n\n"
        ++ generateCitations (sq.searchResults.getD []), ?_⟩
      unfold sectionFor generateSection
      simp [List.append_assoc]

/-- Concrete sub-question exercising the Sources deduplication: its two
search results share one url. -/
def c6SubQuestion : SubQuestion :=
  { id := [], question := str "b?", status := SQStatus.completed,
    searchResults := some
      [{ title := str "T1", url := str "u", description := [], relevance := none },
       { title := str "T2", url := str "u", description := [], relevance := none }],
    analysis := some (str "A") }

/-- Concrete sub-question list for the C6 witness. -/
def c6List : List SubQuestion := [c6SubQuestion]

/-- C6 witness at the one-completed-sub-question list `c6List`. -/
theorem synthesizeReport_structure_witness :
    (completedOf c6List = [] →
      synthesizeReport (str "q") c6List = inProgressMsg (str "q"))
    ∧ (completedOf c6List ≠ [] →
        (∃ pre post, synthesizeReport (str "q") c6List
          = pre ++ List.intercalate (str "\n\n")
              ((completedOf c6List).map sectionFor) ++ post)
        ∧ (∀ sq ∈ completedOf c6List,
            ∃ rest, sectionFor sq = str "## " ++ cleanQuestion sq.question ++ rest)
        ∧ (sourcePairs (completedOf c6List)).map Prod.snd
            = dedupFirst ((allResults (completedOf c6List)).map (fun r => r.url))
        ∧ ((sourcePairs (completedOf c6List)).map Prod.snd).Nodup) :=
  synthesizeReport_structure (str "q") c6List (by decide)

/-- C6 counterexample: on the EMPTY sub-question list the synthesizer
returns the no-research-data message, not the in-progress placeholder the
claim promises whenever no sub-question is completed. -/
theorem synthesizeReport_empty_counterexample :
    synthesizeReport (str "q") [] = noDataMsg (str "q")
    ∧ synthesizeReport (str "q") [] ≠ inProgressMsg (str "q") := by
  exact ⟨rfl, by decide⟩

/-- A non-empty id string is not JS-falsy. -/
theorem strFalsy_some_of_ne (id : Str) (h : id ≠ []) : strFalsy (some id) = false := by
  cases id with
  | nil => exact absurd rfl h
  | cons c cs => rfl

/-- C7 (amended): for a stored session under a non-empty id, `report`
fails with `Research is not yet completed` while the session is not
Completed, and otherwise returns the stored report together with
`duration = (endTime - startTime) / 1000` — the source divides the
millisecond difference by 1000, it does not return the bare difference. -/
theorem generateReport_spec (params : Params) (store : Store) (id : Str) (r : ResearchData)
    (hid : params.researchId = some id) (hne : id ≠ [])
    (hlk : lookupStore store id = some r) :
    (r.status ≠ ResearchStatus.completed →
      generateReport params store
        = (Except.ok (errorResponse (str "Research is not yet completed")), store))
    ∧ (r.status = ResearchStatus.completed →
      generateReport params store
        = (Except.ok { status := str "success",
                       result := some (ResultPayload.reportR id r.question r.report
                         r.subQuestions.length r.steps.length r.startTime r.endTime
                         (((r.endTime.getD 0 : ℚ) - (r.startTime : ℚ)) / 1000)) },
           store)) := by
  have hfalsy : strFalsy (some id) = false := strFalsy_some_of_ne id hne
  unfold generateReport
  rw [hid]
  simp only [interp, hfalsy, hlk, Option.isNone_some, Bool.or_self, Bool.false_eq_true,
    if_false]
  constructor
  · intro hst
    rw [if_pos hst]
  · intro hst
    rw [if_neg (fun hcon => hcon hst)]

/-- Concrete completed session for the C7 material. -/
def c7Research : ResearchData :=
  { id := str "r", question := some (str "q"), subQuestions := [], steps := [],
    status := ResearchStatus.completed, report := some (str "R"),
    startTime := 0, endTime := some 2000 }

/-- Store holding the completed session. -/
def c7Store : Store := [(str "r", c7Research)]

/-- Report request aimed at the completed session. -/
def c7Params : Params :=
  { query := none, maxSubQuestions := none, researchId := some (str "r"),
    action := some (str "report") }

/-- Effects record reused by the concrete executions (the report and
status paths never read it). -/
def effOk : Effects :=
  { now := 0, freshId := str "R", stepId1 := str "s1", stepId2 := str "s2",
    searchOutcome := Except.ok [] }

/-- C7 witness at the concrete completed session. -/
theorem generateReport_spec_witness :
    (c7Research.status ≠ ResearchStatus.completed →
      generateReport c7Params c7Store
        = (Except.ok (errorResponse (str "Research is not yet completed")), c7Store))
    ∧ (c7Research.status = ResearchStatus.completed →
      generateReport c7Params c7Store
        = (Except.ok { status := str "success",
                       result := some (ResultPayload.reportR (str "r") c7Research.question
                         c7Research.report c7Research.subQuestions.length c7Research.steps.length
                         c7Research.startTime c7Research.endTime
                         (((c7Research.endTime.getD 0 : ℚ) - (c7Research.startTime : ℚ)) / 1000)) },
           c7Store)) :=
  generateReport_spec c7Params c7Store (str "r") c7Research rfl (by decide) (by decide)

/-- Duration extractor from a report response payload. -/
def reportDurationOf (resp : MCPToolResponse) : Option ℚ :=
  match resp.result with
  | some (ResultPayload.reportR _ _ _ _ _ _ _ d) => some d
  | _ => none

/-- C7 counterexample: with `startTime = 0` and `endTime = 2000`, the
report operation returns duration `2` (seconds), not `2000 = endTime -
startTime` as the claim states. -/
theorem generateReport_duration_counterexample :
    reportDurationOf (execute c7Params effOk c7Store).1
      = some ((((2000 : Nat) : ℚ) - ((0 : Nat) : ℚ)) / 1000)
    ∧ (((2000 : Nat) : ℚ) - ((0 : Nat) : ℚ)) / 1000 = 2
    ∧ (2 : ℚ) ≠ 2000 - 0 := by
  refine ⟨rfl, by push_cast; norm_num, by norm_num⟩

/-- C8: a `continue` on a session whose status is Completed returns the
idempotent success response and leaves the whole store — hence the
session's sub-questions, steps, status, report and endTime — unchanged. -/
theorem continueResearch_completed_noop (params : Params) (eff : Effects) (store : Store)
    (id : Str) (r : ResearchData)
    (hid : params.researchId = some id) (hne : id ≠ [])
    (hlk : lookupStore store id = some r)
    (hst : r.status = ResearchStatus.completed) :
    continueResearch params eff store
      = (Except.ok { status := str "success",
                     result := some (ResultPayload.continueDone id r.question r.status
                       (str "Research is already completed")) }, store) := by
  have hfalsy : strFalsy (some id) = false := strFalsy_some_of_ne id hne
  unfold continueResearch
  rw [hid]
  simp only [interp, hfalsy, hlk, Option.isNone_some, Bool.or_self, Bool.false_eq_true,
    if_false]
  rw [if_pos hst]

/-- Completed session targeted by a `continue` request. -/
def c8Params : Params :=
  { query := none, maxSubQuestions := none, researchId := some (str "r"),
    action := some (str "continue") }

/-- C8 witness: `continue` on the stored completed session. -/
theorem continueResearch_completed_noop_witness :
    continueResearch c8Params effOk c7Store
      = (Except.ok { status := str "success",
                     result := some (ResultPayload.continueDone (str "r") c7Research.question
                       c7Research.status (str "Research is already completed")) }, c7Store) :=
  continueResearch_completed_noop c8Params effOk c7Store (str "r") c7Research rfl
    (by decide) (by decide) (by decide)

/-- With `params.query` undefined, `startResearch` first stores the
partial session (with its question-analysis step appended), then throws
from `analyzeQuestion(undefined)` — the partial session stays stored. -/
theorem startResearch_none_query (params : Params) (eff : Effects) (store : Store)
    (hq : params.query = none) :
    startResearch params eff store
      = (Except.error (str "TypeError: Cannot read properties of undefined"),
         setStore store eff.freshId
           { id := eff.freshId, question := none, subQuestions := [],
             steps := [{ id := eff.stepId1, stepType := StepType.questionAnalysis,
                         content := str "Analyzing question: \"undefined\"",
                         timestamp := eff.now }],
             status := ResearchStatus.planning, report := none,
             startTime := eff.now, endTime := none }) := by
  unfold startResearch
  rw [hq]
  rfl

/-- C9 (amended): a `start` request (explicit or defaulted) without a
query always yields an error response; when `researchId` is also missing
the validation rejects it immediately with no store change, but when a
non-empty `researchId` is supplied the dispatch still reaches
`startResearch`, which stores a partial Planning session before the
`TypeError` is caught — a session IS created despite the error. -/
theorem execute_missing_query (params : Params) (eff : Effects) (store : Store)
    (hq : params.query = none)
    (ha : params.action = none ∨ params.action = some (str "start")) :
    (execute params eff store).1.status = str "error"
    ∧ (params.researchId = none →
        execute params eff store
          = (errorResponse (str "Either query or researchId is required"), store))
    ∧ (∀ id, params.researchId = some id → id ≠ [] →
        (execute params eff store).2
          = setStore store eff.freshId
              { id := eff.freshId, question := none, subQuestions := [],
                steps := [{ id := eff.stepId1, stepType := StepType.questionAnalysis,
                            content := str "Analyzing question: \"undefined\"",
                            timestamp := eff.now }],
                status := ResearchStatus.planning, report := none,
                startTime := eff.now, endTime := none }) := by
  have hact : effectiveAction params.action = str "start" := by
    rcases ha with h | h <;> rw [h] <;> rfl
  refine ⟨?_, ?_, ?_⟩
  · cases hrid : params.researchId with
    | none =>
      unfold execute
      rw [hq, hrid]
      rfl
    | some rid =>
      cases rid with
      | nil =>
        unfold execute
        rw [hq, hrid]
        rfl
      | cons c cs =>
        unfold execute
        rw [hq, hrid, hact, startResearch_none_query params eff store hq]
        rfl
  · intro hrid
    unfold execute
    rw [hq, hrid]
    rfl
  · intro id hid hneid
    unfold execute
    rw [hq, hid, hact, startResearch_none_query params eff store hq]
    have hie : List.isEmpty id = false := by
      cases id with
      | nil => exact absurd rfl hneid
      | cons c cs => rfl
    simp only [strFalsy, hie, Bool.and_false, Bool.false_eq_true, if_false, if_true]

/-- Start-without-query request that still carries a researchId. -/
def c9Params : Params :=
  { query := none, maxSubQuestions := none, researchId := some (str "x"),
    action := none }

/-- C9 witness at the concrete request `c9Params` on the empty store. -/
theorem execute_missing_query_witness :
    (execute c9Params effOk []).1.status = str "error"
    ∧ (c9Params.researchId = none →
        execute c9Params effOk []
          = (errorResponse (str "Either query or researchId is required"), []))
    ∧ (∀ id, c9Params.researchId = some id → id ≠ [] →
        (execute c9Params effOk []).2
          = setStore [] effOk.freshId
              { id := effOk.freshId, question := none, subQuestions := [],
                steps := [{ id := effOk.stepId1, stepType := StepType.questionAnalysis,
                            content := str "Analyzing question: \"undefined\"",
                            timestamp := effOk.now }],
                status := ResearchStatus.planning, report := none,
                startTime := effOk.now, endTime := none }) :=
  execute_missing_query c9Params effOk [] rfl (Or.inl rfl)

/-- C9 counterexample: the start request without a query is answered with
an error, yet the store has grown by one (leaked partial) session. -/
theorem execute_missing_query_counterexample :
    (execute c9Params effOk []).1.status = str "error"
    ∧ ((execute c9Params effOk []).2).length = 1 := by
  decide

/-- Start request used by the failure traces (`a and b` decomposes into
the two sub-questions `a?` and `b?`). -/
def tracePStart : Params :=
  { query := some (str "a and b"), maxSubQuestions := none, researchId := none,
    action := none }

/-- Effects whose search collaborator throws. -/
def traceEffFail : Effects :=
  { now := 0, freshId := str "R", stepId1 := str "s1", stepId2 := str "s2",
    searchOutcome := Except.error (str "Failed to perform search: network error") }

/-- Continue request against the traced session. -/
def tracePCont : Params :=
  { query := none, maxSubQuestions := none, researchId := some (str "R"),
    action := some (str "continue") }

/-- Store after `start`. -/
def traceStore1 : Store := (execute tracePStart effOk []).2

/-- Store after one `continue` whose search threw. -/
def traceStore2 : Store := (execute tracePCont traceEffFail traceStore1).2

/-- Store after a second throwing `continue`. -/
def traceStore2b : Store := (execute tracePCont traceEffFail traceStore2).2

/-- Store after a successful `continue` following the failed one. -/
def traceStore3 : Store := (execute tracePCont effOk traceStore2).2

/-- The stored per-sub-question statuses of one session. -/
def statusesAt (store : Store) (id : Str) : List SQStatus :=
  match lookupStore store id with
  | some r => r.subQuestions.map (fun sq => sq.status)
  | none => []

/-- C1 evaluation at the failing input: after `start` on `a and b`, a
`continue` whose search throws surfaces an error response, but the
affected sub-question is left `in-progress` — NOT reverted to `pending` —
and the next `continue` therefore advances the second sub-question
instead of retrying the first, which stays stuck forever. -/
theorem continueResearch_failure_no_rollback :
    (execute tracePCont traceEffFail traceStore1).1.status = str "error"
    ∧ statusesAt traceStore2 (str "R") = [SQStatus.inProgress, SQStatus.pending]
    ∧ statusesAt traceStore3 (str "R") = [SQStatus.inProgress, SQStatus.completed] := by
  decide

/-- C2 evaluation at the failing input: two consecutive `continue` calls
whose searches throw leave BOTH sub-questions of the session
`in-progress` between operations, violating the claimed
at-most-one-InProgress invariant (a direct consequence of the missing
rollback shown for C1). -/
theorem session_two_failures_two_inProgress :
    statusesAt traceStore2b (str "R") = [SQStatus.inProgress, SQStatus.inProgress]
    ∧ (statusesAt traceStore2b (str "R")).count SQStatus.inProgress = 2 := by
  decide
